import Mathlib

/-!
Shallow embedding of `src/binding.cc`, the single source file of the
apriltags-kaess-node repository: a Node N-API wrapper exposing an
`AprilTagDetector` class with a constructor (tag-family name plus an
optional options object with a `blackBorder` key) and a `detect` method
(image buffer, width, height).

Modelling choices:
- JavaScript values passed across the N-API boundary are an inductive
  `NapiValue`; a JS number is carried as a rational (every JS double is a
  rational, and the only numeric operation the binding performs is
  `Int32Value()`, i.e. ECMAScript `ToInt32`: truncate toward zero, then
  wrap into the signed 32-bit range).
- C `int` arithmetic is `Int` wrapped into `[-2^31, 2^31)`; the
  `(size_t)` cast of line 142/146/150 is reduction modulo `2^64` into `Nat`.
- The AprilTags engine (`TagDetector::extractTags`) and the OpenCV colour
  conversions are external collaborators, not code of this repository:
  the engine is a parameter `extractTags : CanonicalImage → List
  TagDetection`, and `CanonicalImage` records which of the three
  normalization branches built the image (the branch, the dimensions and
  the source bytes), leaving the luma arithmetic abstract.
- Engine-produced floating values (centers, corners, homography entries)
  are opaque pass-through data for the binding; they are modelled as
  rationals.
-/

/-- A JavaScript value as seen through the N-API boundary. -/
inductive NapiValue where
  | num (q : ℚ)
  | str (s : String)
  | buf (data : List Nat)
  | obj (fields : List (String × NapiValue))
  | boolean (b : Bool)
  | null
  | undefined

/-- `IsBuffer()`. -/
def NapiValue.isBuffer : NapiValue → Bool
  | .buf _ => true
  | _ => false

/-- `IsNumber()`. -/
def NapiValue.isNumber : NapiValue → Bool
  | .num _ => true
  | _ => false

/-- `IsString()`. -/
def NapiValue.isString : NapiValue → Bool
  | .str _ => true
  | _ => false

/-- `IsObject()`. -/
def NapiValue.isObject : NapiValue → Bool
  | .obj _ => true
  | _ => false

/-- The bytes of a buffer value (`buffer.Data()` / `buffer.Length()`);
junk default on non-buffers, which every use guards against. -/
def NapiValue.bufData : NapiValue → List Nat
  | .buf data => data
  | _ => []

/-- The string payload of a string value (`Utf8Value()`). -/
def NapiValue.strVal : NapiValue → String
  | .str s => s
  | _ => ""

/-- `options.Has(key)`. -/
def NapiValue.hasKey : NapiValue → String → Bool
  | .obj fields, k => fields.any fun p => p.1 == k
  | _, _ => false

/-- `options.Get(key)`; N-API yields `undefined` for an absent key. -/
def NapiValue.getKey : NapiValue → String → NapiValue
  | .obj fields, k =>
      match fields.find? fun p => p.1 == k with
      | some p => p.2
      | none => .undefined
  | _, _ => .undefined

/-- Wrap an integer into the signed 32-bit range `[-2^31, 2^31)`:
the value of a C `int` holding this quantity (2147483648 = 2^31,
4294967296 = 2^32). -/
def wrap32 (n : Int) : Int := (n + 2147483648) % 4294967296 - 2147483648

/-- Truncation of a rational toward zero, as ECMAScript `ToInt32` does
before its modular wrap.  For a reduced fraction, T-division of the
numerator by the denominator truncates toward zero. -/
def ratTrunc (q : ℚ) : Int := Int.tdiv q.num (q.den : Int)

/-- ECMAScript `ToInt32`, the semantics of `Napi::Number::Int32Value()`
on a (finite) JS number: truncate toward zero, wrap into 32 bits. -/
def toInt32 (q : ℚ) : Int := wrap32 (ratTrunc q)

/-- `Napi::Value::As<Napi::Number>().Int32Value()` as `binding.cc`
line 73 calls it: the `As` cast is unchecked, and the binding performs no
validation of the value before the conversion.  Our theorems only ever
apply this to number values; the non-number fallback stands for the
out-of-repository N-API behaviour on a miscast value. -/
def napiInt32Value : NapiValue → Int
  | .num q => toInt32 q
  | _ => 0

/-- The C cast `(size_t) v` of a signed value: reduction modulo `2^64`
(18446744073709551616 = 2^64). -/
def toSizeT (n : Int) : Nat := (n % 18446744073709551616).toNat

/-- C `int` multiplication of values already in 32-bit range, wrapped
(two's-complement model of the `width * height` products of lines
142-150). -/
def int32Mul (a b : Int) : Int := wrap32 (a * b)

/-- The compiled-in codeword tables.  `t36h11` (line 18) is always
included; the other four exist only under their `USE_TAG_*` build flag. -/
inductive TagCodes where
  | t36h11
  | t36h9
  | t25h9
  | t25h7
  | t16h5
deriving DecidableEq, Repr

/-- Which optional `USE_TAG_*` preprocessor flags the build defined
(lines 6-17); `36h11` needs no flag. -/
structure BuildFlags where
  use16h5 : Bool
  use25h7 : Bool
  use25h9 : Bool
  use36h9 : Bool
deriving DecidableEq, Repr

/-- A build with no optional family compiled in, matching the error
message of line 103. -/
def allOff : BuildFlags := ⟨false, false, false, false⟩

/-- The configuration the constructor installs on the engine: the
resolved codeword table (line 108) and the border width stored into
`detector->thisTagFamily.blackBorder` (line 111). -/
structure DetectorState where
  tagCodes : TagCodes
  blackBorder : Int
deriving DecidableEq, Repr

/-- Outcome of the constructor: a thrown `Napi::TypeError` (its message)
or a constructed detector.  On the error paths the constructor returns
before line 108, so no engine is ever built there. -/
inductive CtorResult where
  | error (msg : String)
  | ok (state : DetectorState)
deriving DecidableEq, Repr

/-- `AprilTagDetector::AprilTagDetector` (lines 51-112), as a function of
the build flags and the N-API argument list. -/
def construct (flags : BuildFlags) (info : List NapiValue) : CtorResult :=
  if info.length < 1 then .error "Expected tag family string"
  else if (info.getD 0 .undefined).isString = false then
    .error "Tag family must be a string"
  else
    let tagFamily := (info.getD 0 .undefined).strVal
    let blackBorder : Int :=
      if 2 ≤ info.length ∧ (info.getD 1 .undefined).isObject = true then
        let options := info.getD 1 .undefined
        if options.hasKey "blackBorder" = true then
          napiInt32Value (options.getKey "blackBorder")
        else 1
      else 1
    if tagFamily = "36h11" then .ok ⟨.t36h11, blackBorder⟩
    else if flags.use36h9 = true ∧ tagFamily = "36h9" then .ok ⟨.t36h9, blackBorder⟩
    else if flags.use25h9 = true ∧ tagFamily = "25h9" then .ok ⟨.t25h9, blackBorder⟩
    else if flags.use25h7 = true ∧ tagFamily = "25h7" then .ok ⟨.t25h7, blackBorder⟩
    else if flags.use16h5 = true ∧ tagFamily = "16h5" then .ok ⟨.t16h5, blackBorder⟩
    else .error "Unknown tag family. Only 36h11 is currently enabled"

/-- One raw detection produced by the external engine
(`AprilTags::TagDetection`): identity, Hamming error, validity flag,
center, four corners in the engine's winding order, 3×3 homography. -/
structure TagDetection where
  id : Int
  hammingDistance : Int
  good : Bool
  cxy : ℚ × ℚ
  p : Fin 4 → ℚ × ℚ
  homography : Fin 3 → Fin 3 → ℚ

/-- The public per-tag record `detect` builds (lines 168-198), with the
JS arrays as lists. -/
structure TagRecord where
  id : Int
  hammingDistance : Int
  good : Bool
  center : List ℚ
  corners : List (List ℚ)
  homography : List ℚ
deriving DecidableEq

/-- The marshaling loop body, lines 165-198: one public record from one
raw detection.  The homography array is filled at index `row * 3 + col`
by nested row-then-col loops, i.e. it is the row-major flattening. -/
def marshalDetection (d : TagDetection) : TagRecord :=
  { id := d.id
    hammingDistance := d.hammingDistance
    good := d.good
    center := [d.cxy.1, d.cxy.2]
    corners := (List.finRange 4).map fun j => [(d.p j).1, (d.p j).2]
    homography := (List.finRange 3).flatMap fun r => (List.finRange 3).map fun c => d.homography r c }

/-- The canonical luminance image handed to the engine, recording which
normalization branch (lines 142-153) produced it, the declared
dimensions, and the (unmodified) source bytes; the OpenCV luma
conversion itself is external to this repository. -/
inductive CanonicalImage where
  | fromGray (width height : Int) (data : List Nat)
  | fromRGB (width height : Int) (data : List Nat)
  | fromRGBA (width height : Int) (data : List Nat)
deriving DecidableEq, Repr

/-- The size-matching format inference of lines 142-154, in source
order: grayscale first, then 3-channel, then 4-channel, else failure. -/
def normalizeImage (buffer : List Nat) (width height : Int) : Option CanonicalImage :=
  if buffer.length = toSizeT (int32Mul width height) then
    some (.fromGray width height buffer)
  else if buffer.length = toSizeT (int32Mul (int32Mul width height) 3) then
    some (.fromRGB width height buffer)
  else if buffer.length = toSizeT (int32Mul (int32Mul width height) 4) then
    some (.fromRGBA width height buffer)
  else
    none

/-- Outcome of `detect`: a thrown `Napi::TypeError` (its message, the
return value being `null`) or the result array. -/
inductive DetectResult where
  | error (msg : String)
  | ok (records : List TagRecord)
deriving DecidableEq

/-- `AprilTagDetector::Detect` (lines 114-201), parameterized by the
external engine `extractTags`. -/
def Detect (extractTags : CanonicalImage → List TagDetection)
    (info : List NapiValue) : DetectResult :=
  if info.length < 1 then .error "Expected image buffer"
  else if (info.getD 0 .undefined).isBuffer = false then
    .error "Image must be a Buffer"
  else if info.length < 3 ∨ (info.getD 1 .undefined).isNumber = false
      ∨ (info.getD 2 .undefined).isNumber = false then
    .error "Expected width and height as numbers"
  else
    match normalizeImage (info.getD 0 .undefined).bufData
        (napiInt32Value (info.getD 1 .undefined))
        (napiInt32Value (info.getD 2 .undefined)) with
    | none => .error "Invalid buffer size for given dimensions"
    | some img => .ok ((extractTags img).map marshalDetection)

/-- `Detect` as a state transformer on the constructed configuration and
the caller-visible arguments.  The body of lines 114-201 contains no
store into `detector`, `thisTagFamily` or the caller's buffer (the
grayscale branch clones, the colour branches write only the fresh
image), so its embedding returns the state and arguments unchanged. -/
def DetectCall (s : DetectorState) (extractTags : CanonicalImage → List TagDetection)
    (info : List NapiValue) : DetectorState × List NapiValue × DetectResult :=
  (s, info, Detect extractTags info)

/-- Repeated `detect` calls on one instance, threading the state. -/
def runCalls (s : DetectorState) (extractTags : CanonicalImage → List TagDetection) :
    List (List NapiValue) → DetectorState
  | [] => s
  | info :: rest => runCalls (DetectCall s extractTags info).1 extractTags rest

/-- Does the first character list occur at the head of the second? -/
def leadsWith : List Char → List Char → Bool
  | [], _ => true
  | _ :: _, [] => false
  | a :: as, b :: bs => a == b && leadsWith as bs

/-- Does the first character list occur anywhere inside the second? -/
def occursIn (sub : List Char) : List Char → Bool
  | [] => leadsWith sub []
  | c :: rest => leadsWith sub (c :: rest) || occursIn sub rest

/-- Does `msg` mention `sub` as a substring? -/
def mentionsStr (msg sub : String) : Bool := occursIn sub.data msg.data

/-! ### Arithmetic helper lemmas -/

lemma wrap32_bounds (n : Int) : -2147483648 ≤ wrap32 n ∧ wrap32 n < 2147483648 := by
  unfold wrap32; omega

lemma wrap32_eq_self (n : Int) (h1 : -2147483648 ≤ n) (h2 : n < 2147483648) :
    wrap32 n = n := by
  unfold wrap32; omega

lemma ratTrunc_intCast (n : Int) : ratTrunc (n : ℚ) = n := by
  unfold ratTrunc
  rw [Rat.num_intCast, Rat.den_intCast]
  simp

lemma toInt32_intCast (n : Int) (h1 : -2147483648 ≤ n) (h2 : n < 2147483648) :
    toInt32 (n : ℚ) = n := by
  unfold toInt32
  rw [ratTrunc_intCast]
  exact wrap32_eq_self n h1 h2

lemma toInt32_bounds (q : ℚ) : -2147483648 ≤ toInt32 q ∧ toInt32 q < 2147483648 :=
  wrap32_bounds (ratTrunc q)

lemma toSizeT_of_small (n : Int) (h1 : 0 ≤ n) (h2 : n < 2147483648) :
    toSizeT n = n.toNat := by
  unfold toSizeT; omega

lemma toSizeT_of_neg (n : Int) (h1 : -2147483648 ≤ n) (h2 : n < 0) :
    18446744071562067968 ≤ toSizeT n := by
  unfold toSizeT; omega

/-- `Detect` on a well-shaped argument list reduces to the
normalize-then-marshal pipeline. -/
lemma Detect_eq_match (f : CanonicalImage → List TagDetection)
    (b : List Nat) (q r : ℚ) :
    Detect f [.buf b, .num q, .num r] =
      match normalizeImage b (toInt32 q) (toInt32 r) with
      | none => .error "Invalid buffer size for given dimensions"
      | some img => .ok ((f img).map marshalDetection) := rfl

/-! ### Claims -/

/-- C1: `detect(buffer, width, height)` interprets the buffer by size
matching in priority order — length `w*h` is single-channel luminance,
length `w*h*3` is 3-channel colour converted to luminance, length
`w*h*4` is 4-channel colour with the fourth channel discarded, and any
other length fails with the invalid-buffer-size error rather than a
result. -/
theorem C1_buffer_size_priority (f : CanonicalImage → List TagDetection)
    (b : List Nat) (W H : Int)
    (hW : 0 ≤ W) (hH : 0 ≤ H)
    (hWr : W < 2147483648) (hHr : H < 2147483648)
    (hprod : W * H * 4 < 2147483648) :
    (b.length = (W * H).toNat →
      Detect f [.buf b, .num (W : ℚ), .num (H : ℚ)] =
        .ok ((f (.fromGray W H b)).map marshalDetection))
    ∧ (b.length ≠ (W * H).toNat → b.length = (W * H * 3).toNat →
      Detect f [.buf b, .num (W : ℚ), .num (H : ℚ)] =
        .ok ((f (.fromRGB W H b)).map marshalDetection))
    ∧ (b.length ≠ (W * H).toNat → b.length ≠ (W * H * 3).toNat →
        b.length = (W * H * 4).toNat →
      Detect f [.buf b, .num (W : ℚ), .num (H : ℚ)] =
        .ok ((f (.fromRGBA W H b)).map marshalDetection))
    ∧ (b.length ≠ (W * H).toNat → b.length ≠ (W * H * 3).toNat →
        b.length ≠ (W * H * 4).toNat →
      Detect f [.buf b, .num (W : ℚ), .num (H : ℚ)] =
        .error "Invalid buffer size for given dimensions") := by
  have hWH : 0 ≤ W * H := mul_nonneg hW hH
  have hWH31 : W * H < 2147483648 := by linarith
  have hWH3 : W * H * 3 < 2147483648 := by linarith
  have hWH30 : 0 ≤ W * H * 3 := by linarith
  have hWH40 : 0 ≤ W * H * 4 := by linarith
  have eW : toInt32 (W : ℚ) = W := toInt32_intCast W (by linarith) hWr
  have eH : toInt32 (H : ℚ) = H := toInt32_intCast H (by linarith) hHr
  have m1 : int32Mul W H = W * H := wrap32_eq_self _ (by linarith) hWH31
  have m3 : int32Mul (int32Mul W H) 3 = W * H * 3 := by
    rw [m1]; exact wrap32_eq_self _ (by linarith) hWH3
  have m4 : int32Mul (int32Mul W H) 4 = W * H * 4 := by
    rw [m1]; exact wrap32_eq_self _ (by linarith) hprod
  have s1 : toSizeT (int32Mul W H) = (W * H).toNat := by
    rw [m1]; exact toSizeT_of_small _ hWH hWH31
  have s3 : toSizeT (int32Mul (int32Mul W H) 3) = (W * H * 3).toNat := by
    rw [m3]; exact toSizeT_of_small _ hWH30 hWH3
  have s4 : toSizeT (int32Mul (int32Mul W H) 4) = (W * H * 4).toNat := by
    rw [m4]; exact toSizeT_of_small _ hWH40 hprod
  refine ⟨?_, ?_, ?_, ?_⟩
  · intro h1
    rw [Detect_eq_match, eW, eH]
    simp [normalizeImage, s1, h1]
  · intro h1 h2
    have hne : (W * H * 3).toNat ≠ (W * H).toNat := fun he => h1 (h2.trans he)
    rw [Detect_eq_match, eW, eH]
    simp [normalizeImage, s1, s3, h1, h2, hne]
  · intro h1 h2 h3
    have hne1 : (W * H * 4).toNat ≠ (W * H).toNat := fun he => h1 (h3.trans he)
    have hne2 : (W * H * 4).toNat ≠ (W * H * 3).toNat := fun he => h2 (h3.trans he)
    rw [Detect_eq_match, eW, eH]
    simp [normalizeImage, s1, s3, s4, h1, h2, h3, hne1, hne2]
  · intro h1 h2 h3
    rw [Detect_eq_match, eW, eH]
    simp [normalizeImage, s1, s3, s4, h1, h2, h3]

/-- C1 witness: a 2×2 grayscale buffer of four bytes is accepted as
single-channel luminance. -/
theorem C1_buffer_size_priority_witness :
    Detect (fun _ => []) [.buf [0, 0, 0, 0], .num ((2 : Int) : ℚ), .num ((2 : Int) : ℚ)] =
      .ok [] :=
  (C1_buffer_size_priority (fun _ => []) [0, 0, 0, 0] 2 2 (by decide) (by decide)
    (by decide) (by decide) (by decide)).1 (by decide)

/-- C2 counterexample: the claim says a present `blackBorder` that is
not a positive integer makes construction fail with an
invalid-border-width error; but with `blackBorder = 0` (not positive)
construction succeeds and installs border width 0 — lines 68-75 perform
no validation at all, and no border-width error exists in the binding. -/
theorem C2_counterexample :
    construct allOff [.str "36h11", .obj [("blackBorder", .num 0)]] =
      .ok ⟨.t36h11, 0⟩ := by
  decide

/-- C2 (amended): a supplied `blackBorder` value is not validated for
type or positivity; any numeric value is coerced by `Int32Value()`
(ECMAScript `ToInt32`) and installed on the engine's tag family,
zero, negative and fractional values included, and construction
succeeds. -/
theorem C2_border_unvalidated (flags : BuildFlags) (q : ℚ) :
    construct flags [.str "36h11", .obj [("blackBorder", .num q)]] =
      .ok ⟨.t36h11, toInt32 q⟩ := by
  rfl

/-- C3 counterexample: the claim says the unknown-family error message
names the rejected string; for the rejected family name "foo" the
message is the fixed string of line 103, which does not mention "foo". -/
theorem C3_counterexample :
    construct allOff [.str "foo"] =
      .error "Unknown tag family. Only 36h11 is currently enabled"
    ∧ mentionsStr "Unknown tag family. Only 36h11 is currently enabled" "foo" = false := by
  constructor
  · decide
  · decide

/-- C3 (amended): every family-name string matching no compiled-in
family identifier makes construction fail with the fixed
unknown-tag-family message (which names the always-enabled family, not
the rejected string), and no service handle is produced — the
constructor returns before line 108, so the engine is never built. -/
theorem C3_unknown_family (flags : BuildFlags) (s : String) (rest : List NapiValue)
    (h11 : s ≠ "36h11")
    (h369 : flags.use36h9 = true → s ≠ "36h9")
    (h259 : flags.use25h9 = true → s ≠ "25h9")
    (h257 : flags.use25h7 = true → s ≠ "25h7")
    (h165 : flags.use16h5 = true → s ≠ "16h5") :
    construct flags (.str s :: rest) =
      .error "Unknown tag family. Only 36h11 is currently enabled"
    ∧ ∀ st, construct flags (.str s :: rest) ≠ .ok st := by
  have n1 : ¬(flags.use36h9 = true ∧ s = "36h9") := fun h => h369 h.1 h.2
  have n2 : ¬(flags.use25h9 = true ∧ s = "25h9") := fun h => h259 h.1 h.2
  have n3 : ¬(flags.use25h7 = true ∧ s = "25h7") := fun h => h257 h.1 h.2
  have n4 : ¬(flags.use16h5 = true ∧ s = "16h5") := fun h => h165 h.1 h.2
  have he : construct flags (.str s :: rest) =
      .error "Unknown tag family. Only 36h11 is currently enabled" := by
    simp [construct, NapiValue.isString, NapiValue.strVal, h11, n1, n2, n3, n4]
  exact ⟨he, fun st hst => by rw [he] at hst; exact CtorResult.noConfusion hst⟩

/-- C3 witness: a build with no optional family rejects the name
"f00bar" with the fixed message. -/
theorem C3_unknown_family_witness :
    construct allOff [.str "f00bar"] =
      .error "Unknown tag family. Only 36h11 is currently enabled" :=
  (C3_unknown_family allOff "f00bar" [] (by decide) (by decide) (by decide)
    (by decide) (by decide)).1

/-- C4: each public record carries exactly the marshalled fields of its
raw detection — `id`, `hammingDistance`, the engine's `good` flag
unrecomputed, a two-element center, the four corners in engine order,
and a nine-element homography whose entry `3*row + col` is matrix entry
`(row, col)` (the `TagRecord` structure has exactly these six fields). -/
theorem C4_record_shape (d : TagDetection) :
    (marshalDetection d).id = d.id
    ∧ (marshalDetection d).hammingDistance = d.hammingDistance
    ∧ (marshalDetection d).good = d.good
    ∧ (marshalDetection d).center = [d.cxy.1, d.cxy.2]
    ∧ (marshalDetection d).corners.length = 4
    ∧ (∀ j : Fin 4, (marshalDetection d).corners.getD j.val [] = [(d.p j).1, (d.p j).2])
    ∧ (marshalDetection d).homography.length = 9
    ∧ ∀ r c : Fin 3,
        (marshalDetection d).homography.getD (3 * r.val + c.val) 0 = d.homography r c := by
  refine ⟨rfl, rfl, rfl, rfl, rfl, ?_, rfl, ?_⟩
  · intro j
    fin_cases j <;> rfl
  · intro r c
    fin_cases r <;> fin_cases c <;> rfl

/-- C8: with no options object, or an options object without the
`blackBorder` key, the installed border width is the default 1; when the
key is supplied, its `ToInt32` coercion is installed, which is the
supplied value itself whenever that value is an integer in 32-bit
range. -/
theorem C8_border_default_and_override (flags : BuildFlags)
    (fields : List (String × NapiValue)) (q : ℚ) (n : Int)
    (hno : (NapiValue.obj fields).hasKey "blackBorder" = false)
    (hn1 : -2147483648 ≤ n) (hn2 : n < 2147483648) :
    construct flags [.str "36h11"] = .ok ⟨.t36h11, 1⟩
    ∧ construct flags [.str "36h11", .obj fields] = .ok ⟨.t36h11, 1⟩
    ∧ construct flags [.str "36h11", .obj [("blackBorder", .num q)]] =
        .ok ⟨.t36h11, toInt32 q⟩
    ∧ construct flags [.str "36h11", .obj [("blackBorder", .num (n : ℚ))]] =
        .ok ⟨.t36h11, n⟩ := by
  refine ⟨by rfl, ?_, by rfl, ?_⟩
  · simp [construct, NapiValue.isString, NapiValue.strVal, NapiValue.isObject, hno]
  · have h3 : construct flags [.str "36h11", .obj [("blackBorder", .num (n : ℚ))]] =
        .ok ⟨.t36h11, toInt32 (n : ℚ)⟩ := rfl
    rw [h3, toInt32_intCast n hn1 hn2]

/-- C8 witness: default 1 without the key; a supplied 2 (integral) or
5/2 (truncating to 2) is installed in place of the default. -/
theorem C8_border_default_and_override_witness :
    construct allOff [.str "36h11"] = .ok ⟨.t36h11, 1⟩
    ∧ construct allOff [.str "36h11", .obj []] = .ok ⟨.t36h11, 1⟩
    ∧ construct allOff [.str "36h11", .obj [("blackBorder", .num (mkRat 5 2))]] =
        .ok ⟨.t36h11, 2⟩
    ∧ construct allOff [.str "36h11", .obj [("blackBorder", .num ((2 : Int) : ℚ))]] =
        .ok ⟨.t36h11, 2⟩ :=
  C8_border_default_and_override allOff [] (mkRat 5 2) 2 (by decide) (by decide) (by decide)

/-- C5: the result array is created with the engine's detection count
(line 163) and slot `i` is filled from detection `i` (lines 165-198) —
lengths match, emission order is preserved index-for-index with nothing
dropped, re-sorted or deduplicated, and an empty engine output yields
the empty, non-error result array. -/
theorem C5_order_preserved (f : CanonicalImage → List TagDetection)
    (b : List Nat) (q r : ℚ) (img : CanonicalImage)
    (h : normalizeImage b (toInt32 q) (toInt32 r) = some img) :
    Detect f [.buf b, .num q, .num r] = .ok ((f img).map marshalDetection)
    ∧ ((f img).map marshalDetection).length = (f img).length
    ∧ (∀ i : Nat, ((f img).map marshalDetection).get? i =
        ((f img).get? i).map marshalDetection)
    ∧ (f img = [] → Detect f [.buf b, .num q, .num r] = .ok []) := by
  have hd : Detect f [.buf b, .num q, .num r] = .ok ((f img).map marshalDetection) := by
    rw [Detect_eq_match, h]
  refine ⟨hd, by simp, fun i => by simp, fun he => by rw [hd, he]; rfl⟩

/-- C5 witness: a 1×1 grayscale frame on which the engine reports
nothing yields the empty result array. -/
theorem C5_order_preserved_witness :
    Detect (fun _ => []) [.buf [0], .num 1, .num 1] = .ok [] :=
  (C5_order_preserved (fun _ => []) [0] 1 1 (.fromGray 1 1 [0]) (by decide)).1

/-- C6: a missing or non-buffer first argument, or missing or
non-numeric width/height, fails with the type error naming the faulty
argument ("Expected image buffer" / "Image must be a Buffer" /
"Expected width and height as numbers", lines 117-133), and such a
failure is independent of the engine — no normalization or image work
is attempted. -/
theorem C6_detect_validation (f g : CanonicalImage → List TagDetection)
    (info : List NapiValue) :
    (info.length < 1 → Detect f info = .error "Expected image buffer")
    ∧ (1 ≤ info.length → (info.getD 0 .undefined).isBuffer = false →
        Detect f info = .error "Image must be a Buffer")
    ∧ (1 ≤ info.length → (info.getD 0 .undefined).isBuffer = true →
        (info.length < 3 ∨ (info.getD 1 .undefined).isNumber = false
          ∨ (info.getD 2 .undefined).isNumber = false) →
        Detect f info = .error "Expected width and height as numbers")
    ∧ (∀ msg, Detect f info = .error msg → Detect g info = .error msg) := by
  refine ⟨?_, ?_, ?_, ?_⟩
  · intro h1
    unfold Detect
    rw [if_pos h1]
  · intro h1 h2
    unfold Detect
    rw [if_neg (by omega), if_pos h2]
  · intro h1 h2 h3
    unfold Detect
    rw [if_neg (by omega), if_neg (by simpa using h2), if_pos h3]
  · intro msg hmsg
    unfold Detect at hmsg ⊢
    split_ifs at hmsg ⊢ <;> try exact hmsg
    cases hn : normalizeImage ((info.getD 0 .undefined).bufData)
        (napiInt32Value (info.getD 1 .undefined))
        (napiInt32Value (info.getD 2 .undefined)) with
    | none => rw [hn] at hmsg; exact hmsg
    | some img => rw [hn] at hmsg; exact absurd hmsg (by simp)

/-- C6 witness: calling `detect` with no arguments fails with the
missing-buffer error, for any engine. -/
theorem C6_detect_validation_witness :
    Detect (fun _ => []) [] = .error "Expected image buffer" :=
  (C6_detect_validation (fun _ => []) (fun _ => []) []).1 (by decide)

/-- C7: `detect` is free of side effects on the service: the body of
lines 114-201 stores nothing into the configuration installed at
construction and nothing into the caller's argument buffer, so one call
— and any sequence of calls with varying buffers — leaves the
tag-family/border configuration exactly as construction established. -/
theorem C7_no_side_effects (s : DetectorState) (f : CanonicalImage → List TagDetection)
    (info : List NapiValue) (calls : List (List NapiValue)) :
    (DetectCall s f info).1 = s
    ∧ (DetectCall s f info).2.1 = info
    ∧ runCalls s f calls = s := by
  refine ⟨rfl, rfl, ?_⟩
  induction calls with
  | nil => rfl
  | cons c cs ih => exact ih

/-- C9: when the declared dimensions multiply to 0 and the buffer is
empty, the grayscale size check `0 == 0` of line 142 succeeds, so
`detect` does not fail with the invalid-buffer-size error but hands a
zero-dimension image to the engine — positivity of width and height is
never enforced at the `detect` boundary. -/
theorem C9_zero_area_accepted (f : CanonicalImage → List TagDetection) (q r : ℚ)
    (h : int32Mul (toInt32 q) (toInt32 r) = 0) :
    Detect f [.buf [], .num q, .num r] =
      .ok ((f (.fromGray (toInt32 q) (toInt32 r) [])).map marshalDetection) := by
  rw [Detect_eq_match]
  simp [normalizeImage, h, toSizeT]

/-- C9 witness: width 0 and height 5 with an empty buffer reach the
engine as a 0×5 grayscale image instead of failing. -/
theorem C9_zero_area_accepted_witness :
    Detect (fun _ => []) [.buf [], .num 0, .num 5] = .ok [] :=
  C9_zero_area_accepted (fun _ => []) 0 5 (by decide)

/-- C10: width and height are truncated to signed 32-bit integers by
`Int32Value()` before any use — 10.9 becomes 10 (`mkRat 109 10` is
10.9), and `detect` behaves identically on an argument and on its
truncation — and when the truncated width is negative and the height
positive (the signed products then negative and overflow-free), the
`(size_t)` casts of lines 142-150 turn them into values at least
`2^64 - 2^31`, which no buffer of length below `2^64 - 2^31` can match,
so the call fails with the invalid-buffer-size error. -/
theorem C10_truncation_semantics (f : CanonicalImage → List TagDetection)
    (b : List Nat) (q r : ℚ)
    (hq : toInt32 q < 0) (hr : 0 < toInt32 r)
    (hno : -2147483648 ≤ toInt32 q * toInt32 r * 4)
    (hb : b.length < 18446744071562067968) :
    toInt32 (mkRat 109 10) = 10
    ∧ (∀ s t : ℚ, Detect f [.buf b, .num s, .num t] =
        Detect f [.buf b, .num ((toInt32 s : Int) : ℚ), .num ((toInt32 t : Int) : ℚ)])
    ∧ Detect f [.buf b, .num q, .num r] =
        .error "Invalid buffer size for given dimensions" := by
  refine ⟨by decide, ?_, ?_⟩
  · intro s t
    rw [Detect_eq_match, Detect_eq_match,
      toInt32_intCast (toInt32 s) (toInt32_bounds s).1 (toInt32_bounds s).2,
      toInt32_intCast (toInt32 t) (toInt32_bounds t).1 (toInt32_bounds t).2]
  · have hWb := toInt32_bounds q
    have hHb := toInt32_bounds r
    have hP : toInt32 q * toInt32 r < 0 := mul_neg_of_neg_of_pos hq hr
    have h1 : -2147483648 ≤ toInt32 q * toInt32 r := by linarith
    have h3lo : -2147483648 ≤ toInt32 q * toInt32 r * 3 := by linarith
    have h3hi : toInt32 q * toInt32 r * 3 < 0 := by linarith
    have m1 : int32Mul (toInt32 q) (toInt32 r) = toInt32 q * toInt32 r :=
      wrap32_eq_self _ h1 (by linarith)
    have m3 : int32Mul (int32Mul (toInt32 q) (toInt32 r)) 3 = toInt32 q * toInt32 r * 3 := by
      rw [m1]; exact wrap32_eq_self _ h3lo (by linarith)
    have m4 : int32Mul (int32Mul (toInt32 q) (toInt32 r)) 4 = toInt32 q * toInt32 r * 4 := by
      rw [m1]; exact wrap32_eq_self _ hno (by linarith)
    have t1 := toSizeT_of_neg (toInt32 q * toInt32 r) h1 hP
    have t3 := toSizeT_of_neg (toInt32 q * toInt32 r * 3) h3lo h3hi
    have t4 := toSizeT_of_neg (toInt32 q * toInt32 r * 4) hno (by linarith)
    have n1 : b.length ≠ toSizeT (int32Mul (toInt32 q) (toInt32 r)) := by
      rw [m1]; omega
    have n3 : b.length ≠ toSizeT (int32Mul (int32Mul (toInt32 q) (toInt32 r)) 3) := by
      rw [m3]; omega
    have n4 : b.length ≠ toSizeT (int32Mul (int32Mul (toInt32 q) (toInt32 r)) 4) := by
      rw [m4]; omega
    rw [Detect_eq_match]
    simp [normalizeImage, n1, n3, n4]

/-- C10 witness: width -3 and height 2 with an empty buffer fail with
the invalid-buffer-size error. -/
theorem C10_truncation_semantics_witness :
    Detect (fun _ => []) [.buf [], .num (-3), .num 2] =
      .error "Invalid buffer size for given dimensions" :=
  (C10_truncation_semantics (fun _ => []) [] (-3) 2 (by decide) (by decide)
    (by decide) (by decide)).2.2
